import Mathlib

/-!
# BreezySLAM C++ header: laser parameters, wheel odometry, map buffer

A shallow embedding of `libraries/breezyslam/c++/breezyslam.hpp`.

Conventions of the embedding.

* A C++ `double` or `float` is a value of a linearly ordered field `α`
  (for instance `ℚ` or `ℝ`) and the arithmetic is exact: rounding, overflow
  and non-finite inputs are not modelled.  Every finite double is a rational
  number, so `ℚ` holds every finite input of the code.  The infinity or NaN of
  a division by zero is kept apart in `computeVelocitiesExtended`.
* `M_PI` comes from `math.h`, which is not part of the repository; it is a
  parameter of `radians` and `computeVelocities`.  `M_PI_double` is its value
  as an IEEE double.
* A C++ `int` is an `Int`; the code only stores the `int` arguments.
* The output reference parameters of a method become the fields of a result
  structure, and the object itself is passed in and returned.
* `extractOdometry` is pure virtual.  It is a parameter of
  `computeVelocities`: a function of the data members of the concrete
  subclass (a state of type `σ`, which it may change) and of its three
  inputs.  The five data members of `WheeledRobot` are private, so an
  implementation can neither read nor write them.
-/

namespace BreezySLAM

/-! ## Class `Laser` -/

/-- The data members of class `Laser`, in the order of their declaration. -/
structure Laser (α : Type) where
  offset_meters : α
  scan_rate_hz : Int
  angle_min_degrees : Int
  angle_max_degrees : Int
  detection_margin : Int
  distance_no_detection_meters : α
  scan_size : Int

/-- The constructor `Laser::Laser`, its seven arguments in the order of the source. -/
def Laser.new {α : Type} (scanSize scanRateHz angleMinDegrees angleMaxDegrees : Int)
    (distanceNoDetectionMeters : α) (detectionMargin : Int) (offsetMeters : α) : Laser α :=
  { scan_size := scanSize
    scan_rate_hz := scanRateHz
    angle_min_degrees := angleMinDegrees
    angle_max_degrees := angleMaxDegrees
    distance_no_detection_meters := distanceNoDetectionMeters
    detection_margin := detectionMargin
    offset_meters := offsetMeters }

/-! ## Class `WheeledRobot` -/

/-- The value of `M_PI` as an IEEE double, `0x400921FB54442D18`, as a rational. -/
def M_PI_double : ℚ := 884279719003555 / 281474976710656

/-- The private data members of class `WheeledRobot`. -/
structure WheeledRobot (α : Type) where
  wheelRadiusMeters : α
  halfAxleLengthMeters : α
  timestampSecondsPrev : α
  leftWheelDegreesPrev : α
  rightWheelDegreesPrev : α

/-- The constructor `WheeledRobot::WheeledRobot`. -/
def WheeledRobot.new {α : Type} [LinearOrderedField α]
    (wheelRadiusMeters halfAxleLengthMeters : α) : WheeledRobot α :=
  { wheelRadiusMeters := wheelRadiusMeters
    halfAxleLengthMeters := halfAxleLengthMeters
    timestampSecondsPrev := 0
    leftWheelDegreesPrev := 0
    rightWheelDegreesPrev := 0 }

/-- The outcome of running a constructor: an exception, or the object built. -/
inductive Constructed (β : Type) where
  | configurationError : Constructed β
  | object : β → Constructed β

/-- The constructor `WheeledRobot::WheeledRobot` as an operation that can fail.
Its body has no `throw` and no test of its arguments: it always ends with an object. -/
def WheeledRobot.construct {α : Type} [LinearOrderedField α]
    (wheelRadiusMeters halfAxleLengthMeters : α) : Constructed (WheeledRobot α) :=
  Constructed.object (WheeledRobot.new wheelRadiusMeters halfAxleLengthMeters)

/-- The three output parameters of `extractOdometry`. -/
structure Odometry (α : Type) where
  timestampSeconds : α
  leftWheelDegrees : α
  rightWheelDegrees : α

/-- The type of an implementation of the pure virtual `extractOdometry`: from the
subclass state and `(timestamp, leftWheelOdometry, rightWheelOdometry)` to the three
outputs and the new subclass state. -/
abbrev ExtractOdometry (α σ : Type) := σ → α → α → α → Odometry α × σ

/-- The three output parameters of `computeVelocities`. -/
structure Velocities (α : Type) where
  dxyMeters : α
  dthetaDegrees : α
  dtSeconds : α

/-- What a call of `computeVelocities` leaves behind: the outputs, the object and
the state of the subclass. -/
structure Call (α σ : Type) where
  out : Velocities α
  robot : WheeledRobot α
  sub : σ

/-- The static method `WheeledRobot::radians`: `degrees * M_PI / 180`. -/
def radians {α : Type} [LinearOrderedField α] (M_PI : α) (degrees : α) : α :=
  degrees * M_PI / 180

/-- The method `WheeledRobot::computeVelocities`, in exact arithmetic.  The division is
the division of the field; for `halfAxleLengthMeters = 0` see
`computeVelocitiesExtended`. -/
def computeVelocities {α σ : Type} [LinearOrderedField α] (M_PI : α)
    (extractOdometry : ExtractOdometry α σ) (self : WheeledRobot α) (sub : σ)
    (timestamp leftWheelOdometry rightWheelOdometry : α) : Call α σ :=
  let extracted := extractOdometry sub timestamp leftWheelOdometry rightWheelOdometry
  let timestampSecondsCurr := extracted.1.timestampSeconds
  let leftWheelDegreesCurr := extracted.1.leftWheelDegrees
  let rightWheelDegreesCurr := extracted.1.rightWheelDegrees
  let out : Velocities α :=
    if self.timestampSecondsPrev > 0 then
      let leftDiffDegrees := leftWheelDegreesCurr - self.leftWheelDegreesPrev
      let rightDiffDegrees := rightWheelDegreesCurr - self.rightWheelDegreesPrev
      { dxyMeters := self.wheelRadiusMeters *
          (radians M_PI leftDiffDegrees + radians M_PI rightDiffDegrees)
        dthetaDegrees := self.wheelRadiusMeters / self.halfAxleLengthMeters *
          (rightDiffDegrees - leftDiffDegrees)
        dtSeconds := timestampSecondsCurr - self.timestampSecondsPrev }
    else
      { dxyMeters := 0, dthetaDegrees := 0, dtSeconds := 0 }
  { out := out
    robot :=
      { wheelRadiusMeters := self.wheelRadiusMeters
        halfAxleLengthMeters := self.halfAxleLengthMeters
        timestampSecondsPrev := timestampSecondsCurr
        leftWheelDegreesPrev := leftWheelDegreesCurr
        rightWheelDegreesPrev := rightWheelDegreesCurr }
    sub := extracted.2 }

/-- The outputs of consecutive `computeVelocities` calls on one object, one call for
each `(timestamp, leftWheelOdometry, rightWheelOdometry)` of the list, in order. -/
def runCalls {α σ : Type} [LinearOrderedField α] (M_PI : α)
    (extractOdometry : ExtractOdometry α σ) :
    WheeledRobot α → σ → List (α × α × α) → List (Velocities α)
  | _, _, [] => []
  | self, sub, input :: rest =>
    let call := computeVelocities M_PI extractOdometry self sub input.1 input.2.1 input.2.2
    call.out :: runCalls M_PI extractOdometry call.robot call.sub rest

/-- The triples `extractOdometry` produces along the same consecutive calls. -/
def extractAll {α σ : Type} (extractOdometry : ExtractOdometry α σ) :
    σ → List (α × α × α) → List (Odometry α)
  | _, [] => []
  | sub, input :: rest =>
    let extracted := extractOdometry sub input.1 input.2.1 input.2.2
    extracted.1 :: extractAll extractOdometry extracted.2 rest

/-- An `extractOdometry` that passes its inputs through: the robot already reports
seconds and degrees.  It has no state of its own. -/
def passThrough {α : Type} : ExtractOdometry α Unit :=
  fun sub timestamp leftWheelOdometry rightWheelOdometry =>
    ({ timestampSeconds := timestamp
       leftWheelDegrees := leftWheelOdometry
       rightWheelDegrees := rightWheelOdometry }, sub)

/-! ### The division by `halfAxleLengthMeters`

In a field `a / 0 = 0`.  The double division of the source gives an infinity or NaN
there, and so does every product with it.  `computeVelocitiesExtended` is the method
again with that case kept apart; where the divisor is not zero it agrees with
`computeVelocities`.
-/

/-- The quotient `a / b` of two doubles: a number when `b` is not zero, and `none`,
for the infinity or NaN of the source, when `b` is zero. -/
def quotient {α : Type} [LinearOrderedField α] (a b : α) : Option α :=
  if b = 0 then none else some (a / b)

/-- The three output parameters of `computeVelocities`, where `dthetaDegrees` is
`none` when the source leaves an infinity or NaN in it. -/
structure VelocitiesExtended (α : Type) where
  dxyMeters : α
  dthetaDegrees : Option α
  dtSeconds : α

/-- What a call of `computeVelocitiesExtended` leaves behind. -/
structure CallExtended (α σ : Type) where
  out : VelocitiesExtended α
  robot : WheeledRobot α
  sub : σ

/-- The method `WheeledRobot::computeVelocities`, the division
`wheelRadiusMeters / halfAxleLengthMeters` being `quotient`: with a zero divisor the
quotient, and its product with `rightDiffDegrees - leftDiffDegrees`, is an infinity
or NaN (`none`). -/
def computeVelocitiesExtended {α σ : Type} [LinearOrderedField α] (M_PI : α)
    (extractOdometry : ExtractOdometry α σ) (self : WheeledRobot α) (sub : σ)
    (timestamp leftWheelOdometry rightWheelOdometry : α) : CallExtended α σ :=
  let extracted := extractOdometry sub timestamp leftWheelOdometry rightWheelOdometry
  let timestampSecondsCurr := extracted.1.timestampSeconds
  let leftWheelDegreesCurr := extracted.1.leftWheelDegrees
  let rightWheelDegreesCurr := extracted.1.rightWheelDegrees
  let out : VelocitiesExtended α :=
    if self.timestampSecondsPrev > 0 then
      let leftDiffDegrees := leftWheelDegreesCurr - self.leftWheelDegreesPrev
      let rightDiffDegrees := rightWheelDegreesCurr - self.rightWheelDegreesPrev
      { dxyMeters := self.wheelRadiusMeters *
          (radians M_PI leftDiffDegrees + radians M_PI rightDiffDegrees)
        dthetaDegrees :=
          (quotient self.wheelRadiusMeters self.halfAxleLengthMeters).map
            fun q => q * (rightDiffDegrees - leftDiffDegrees)
        dtSeconds := timestampSecondsCurr - self.timestampSecondsPrev }
    else
      { dxyMeters := 0, dthetaDegrees := some 0, dtSeconds := 0 }
  { out := out
    robot :=
      { wheelRadiusMeters := self.wheelRadiusMeters
        halfAxleLengthMeters := self.halfAxleLengthMeters
        timestampSecondsPrev := timestampSecondsCurr
        leftWheelDegreesPrev := leftWheelDegreesCurr
        rightWheelDegreesPrev := rightWheelDegreesCurr }
    sub := extracted.2 }

/-! ## Class `CoreSLAM`: the map buffer

The header only declares `CoreSLAM::getmap` and `CoreSLAM::setmap`; their bodies
and `struct state_t` are in a source file that is not part of this development.
-/

/-- One `unsigned char` of a map buffer: a value from 0 to 255. -/
abbrev Byte := Fin 256

/-- Modelled from the spec: the engine's stored map, whose layout (`struct state_t`)
is missing.  The spec describes a square grid of `map_size_pixels` by
`map_size_pixels` cells, one byte of evidence (0 to 255) in each; `rows` lists the
rows from the first to the last, each row from its first to its last cell. -/
structure OccupancyGrid where
  map_size_pixels : Nat
  rows : List (List Byte)
deriving DecidableEq

/-- Modelled from the spec: the invariant that the grid is square, with
`map_size_pixels` rows of `map_size_pixels` cells. -/
def OccupancyGrid.Square (grid : OccupancyGrid) : Prop :=
  grid.rows.length = grid.map_size_pixels ∧
    ∀ row ∈ grid.rows, row.length = grid.map_size_pixels

instance (grid : OccupancyGrid) : Decidable grid.Square := by
  unfold OccupancyGrid.Square
  infer_instance

/-- Modelled from the spec: the body of `CoreSLAM::getmap`, which is missing.  The
spec describes a snapshot of the whole grid as a row-major buffer of
`map_size_pixels * map_size_pixels` bytes: the rows, one after the other, overwrite
the start of the caller's buffer `mapbytes`; what the buffer holds further on stays. -/
def getmap (grid : OccupancyGrid) (mapbytes : List Byte) : List Byte :=
  grid.rows.flatten ++ mapbytes.drop (grid.map_size_pixels * grid.map_size_pixels)

/-- The first `count` rows of `width` bytes each of a row-major buffer. -/
def splitRows (width : Nat) : Nat → List Byte → List (List Byte)
  | 0, _ => []
  | count + 1, bytes => bytes.take width :: splitRows width count (bytes.drop width)

/-- Modelled from the spec: the body of `CoreSLAM::setmap`, which is missing.  The
spec describes a restore of the whole grid from a row-major buffer of
`map_size_pixels * map_size_pixels` bytes, one byte for each cell. -/
def setmap (grid : OccupancyGrid) (mapbytes : List Byte) : OccupancyGrid :=
  { map_size_pixels := grid.map_size_pixels
    rows := splitRows grid.map_size_pixels grid.map_size_pixels mapbytes }

/-- The cell in column `x` of row `y`, when the grid has one. -/
def OccupancyGrid.cell (grid : OccupancyGrid) (x y : Nat) : Option Byte :=
  (grid.rows[y]?).bind fun row => row[x]?

end BreezySLAM

/-! ## Theorems: `Laser` and `WheeledRobot` -/

namespace BreezySLAM

/-- C6: the seven-argument `Laser` constructor stores every argument in the field of
the same meaning (`scan_size = scanSize`, `scan_rate_hz = scanRateHz`,
`angle_min_degrees = angleMinDegrees`, `angle_max_degrees = angleMaxDegrees`,
`distance_no_detection_meters = distanceNoDetectionMeters`,
`detection_margin = detectionMargin`, `offset_meters = offsetMeters`), for all
arguments, unchanged and unswapped. -/
theorem Laser_new_fields {α : Type}
    (scanSize scanRateHz angleMinDegrees angleMaxDegrees : Int)
    (distanceNoDetectionMeters : α) (detectionMargin : Int) (offsetMeters : α) :
    (Laser.new scanSize scanRateHz angleMinDegrees angleMaxDegrees
        distanceNoDetectionMeters detectionMargin offsetMeters).scan_size = scanSize ∧
    (Laser.new scanSize scanRateHz angleMinDegrees angleMaxDegrees
        distanceNoDetectionMeters detectionMargin offsetMeters).scan_rate_hz = scanRateHz ∧
    (Laser.new scanSize scanRateHz angleMinDegrees angleMaxDegrees
        distanceNoDetectionMeters detectionMargin offsetMeters).angle_min_degrees
      = angleMinDegrees ∧
    (Laser.new scanSize scanRateHz angleMinDegrees angleMaxDegrees
        distanceNoDetectionMeters detectionMargin offsetMeters).angle_max_degrees
      = angleMaxDegrees ∧
    (Laser.new scanSize scanRateHz angleMinDegrees angleMaxDegrees
        distanceNoDetectionMeters detectionMargin offsetMeters).distance_no_detection_meters
      = distanceNoDetectionMeters ∧
    (Laser.new scanSize scanRateHz angleMinDegrees angleMaxDegrees
        distanceNoDetectionMeters detectionMargin offsetMeters).detection_margin
      = detectionMargin ∧
    (Laser.new scanSize scanRateHz angleMinDegrees angleMaxDegrees
        distanceNoDetectionMeters detectionMargin offsetMeters).offset_meters
      = offsetMeters :=
  ⟨rfl, rfl, rfl, rfl, rfl, rfl, rfl⟩

/-- C1: on a robot fresh from its constructor, for every wheel radius and half axle
length, every `extractOdometry` and every input, the first `computeVelocities` call
returns `dxyMeters = 0`, `dthetaDegrees = 0` and `dtSeconds = 0`. -/
theorem computeVelocities_first_call {α σ : Type} [LinearOrderedField α] (M_PI : α)
    (extractOdometry : ExtractOdometry α σ) (wheelRadiusMeters halfAxleLengthMeters : α)
    (sub : σ) (timestamp leftWheelOdometry rightWheelOdometry : α) :
    (computeVelocities M_PI extractOdometry
        (WheeledRobot.new wheelRadiusMeters halfAxleLengthMeters) sub
        timestamp leftWheelOdometry rightWheelOdometry).out
      = { dxyMeters := 0, dthetaDegrees := 0, dtSeconds := 0 } := by
  simp [computeVelocities, WheeledRobot.new]

/-- C3: after every `computeVelocities` call, from any state and for any input, the
stored previous sample is the triple `extractOdometry` produced for this call. -/
theorem computeVelocities_stores_sample {α σ : Type} [LinearOrderedField α] (M_PI : α)
    (extractOdometry : ExtractOdometry α σ) (self : WheeledRobot α) (sub : σ)
    (timestamp leftWheelOdometry rightWheelOdometry : α) :
    (computeVelocities M_PI extractOdometry self sub
        timestamp leftWheelOdometry rightWheelOdometry).robot.timestampSecondsPrev
      = (extractOdometry sub timestamp leftWheelOdometry
          rightWheelOdometry).1.timestampSeconds ∧
    (computeVelocities M_PI extractOdometry self sub
        timestamp leftWheelOdometry rightWheelOdometry).robot.leftWheelDegreesPrev
      = (extractOdometry sub timestamp leftWheelOdometry
          rightWheelOdometry).1.leftWheelDegrees ∧
    (computeVelocities M_PI extractOdometry self sub
        timestamp leftWheelOdometry rightWheelOdometry).robot.rightWheelDegreesPrev
      = (extractOdometry sub timestamp leftWheelOdometry
          rightWheelOdometry).1.rightWheelDegrees :=
  ⟨rfl, rfl, rfl⟩

/-- C2: where the code departs from the claim.  On a fresh robot (wheel radius 1, half
axle length 1) whose `extractOdometry` passes its inputs through, the first call
extracts `(0, 0, 0)` and the second call, one second later, extracts `(1, 90, 90)`.
The second call returns `(0, 0, 0)`, while the formulas of the claim, and the doc
comment of the method (elapsed time since previous odometry), give
`dtSeconds = 1 - 0` and
`dxyMeters = 1 * ((90 - 0) * M_PI / 180 + (90 - 0) * M_PI / 180)`, both non-zero:
the timestamp 0 of a real first sample is taken for the 0 the constructor stores. -/
theorem second_call_after_zero_timestamp :
    (computeVelocities M_PI_double passThrough
        (computeVelocities M_PI_double passThrough (WheeledRobot.new 1 1) () 0 0 0).robot
        (computeVelocities M_PI_double passThrough (WheeledRobot.new 1 1) () 0 0 0).sub
        1 90 90).out = { dxyMeters := 0, dthetaDegrees := 0, dtSeconds := 0 } ∧
    (computeVelocities M_PI_double passThrough
        (computeVelocities M_PI_double passThrough (WheeledRobot.new 1 1) () 0 0 0).robot
        (computeVelocities M_PI_double passThrough (WheeledRobot.new 1 1) () 0 0 0).sub
        1 90 90).out.dtSeconds ≠ 1 - 0 ∧
    (computeVelocities M_PI_double passThrough
        (computeVelocities M_PI_double passThrough (WheeledRobot.new 1 1) () 0 0 0).robot
        (computeVelocities M_PI_double passThrough (WheeledRobot.new 1 1) () 0 0 0).sub
        1 90 90).out.dxyMeters
      ≠ 1 * ((90 - 0) * M_PI_double / 180 + (90 - 0) * M_PI_double / 180) := by
  refine ⟨?_, ?_, ?_⟩ <;>
    norm_num [computeVelocities, passThrough, WheeledRobot.new, M_PI_double]

/-- C4, as stated, fails: built with wheel radius `-1` and half axle length `0`, both
non-positive, the constructor does not end in a configuration error; it yields a robot
object that holds these two values. -/
theorem WheeledRobot_construct_nonpositive :
    (-1 : ℚ) ≤ 0 ∧ (0 : ℚ) ≤ 0 ∧
    WheeledRobot.construct (-1 : ℚ) 0 ≠ Constructed.configurationError ∧
    WheeledRobot.construct (-1 : ℚ) 0 = Constructed.object
      { wheelRadiusMeters := -1
        halfAxleLengthMeters := 0
        timestampSecondsPrev := 0
        leftWheelDegreesPrev := 0
        rightWheelDegreesPrev := 0 } := by
  refine ⟨by norm_num, le_refl 0, ?_, rfl⟩
  intro h
  cases h

/-- C4, amended: for every wheel radius and half axle length, non-positive ones
included, the constructor ends without an error and yields a robot object that holds
the two values as given, with a previous sample of `(0, 0, 0)`. -/
theorem WheeledRobot_construct_total {α : Type} [LinearOrderedField α]
    (wheelRadiusMeters halfAxleLengthMeters : α) :
    WheeledRobot.construct wheelRadiusMeters halfAxleLengthMeters = Constructed.object
      { wheelRadiusMeters := wheelRadiusMeters
        halfAxleLengthMeters := halfAxleLengthMeters
        timestampSecondsPrev := 0
        leftWheelDegreesPrev := 0
        rightWheelDegreesPrev := 0 } :=
  rfl

/-- C7: time ordering is not checked.  From every state whose stored previous
timestamp is positive, a call whose extracted sample `curr` has a smaller timestamp
returns (there is no error result) the negative
`dtSeconds = curr.timestampSeconds - timestampSecondsPrev`, the usual `dxyMeters` and
`dthetaDegrees`, and stores the earlier timestamp as the new previous one. -/
theorem computeVelocities_backward_time {α σ : Type} [LinearOrderedField α] (M_PI : α)
    (extractOdometry : ExtractOdometry α σ) (self : WheeledRobot α) (sub : σ)
    (timestamp leftWheelOdometry rightWheelOdometry : α) (curr : Odometry α)
    (hcurr : (extractOdometry sub timestamp leftWheelOdometry rightWheelOdometry).1 = curr)
    (hpos : 0 < self.timestampSecondsPrev)
    (hback : curr.timestampSeconds < self.timestampSecondsPrev) :
    (computeVelocities M_PI extractOdometry self sub
        timestamp leftWheelOdometry rightWheelOdometry).out
      = { dxyMeters := self.wheelRadiusMeters *
            ((curr.leftWheelDegrees - self.leftWheelDegreesPrev) * M_PI / 180 +
              (curr.rightWheelDegrees - self.rightWheelDegreesPrev) * M_PI / 180)
          dthetaDegrees := (self.wheelRadiusMeters / self.halfAxleLengthMeters) *
            ((curr.rightWheelDegrees - self.rightWheelDegreesPrev) -
              (curr.leftWheelDegrees - self.leftWheelDegreesPrev))
          dtSeconds := curr.timestampSeconds - self.timestampSecondsPrev } ∧
    (computeVelocities M_PI extractOdometry self sub
        timestamp leftWheelOdometry rightWheelOdometry).out.dtSeconds < 0 ∧
    (computeVelocities M_PI extractOdometry self sub
        timestamp leftWheelOdometry rightWheelOdometry).robot.timestampSecondsPrev
      = curr.timestampSeconds ∧
    (computeVelocities M_PI extractOdometry self sub
        timestamp leftWheelOdometry rightWheelOdometry).robot.timestampSecondsPrev
      < self.timestampSecondsPrev := by
  subst hcurr
  refine ⟨?_, ?_, rfl, hback⟩
  · simp only [computeVelocities, radians]
    rw [if_pos hpos]
  · simp only [computeVelocities]
    rw [if_pos hpos]
    exact sub_neg.mpr hback

/-- C7 at a concrete call: the stored sample is `(5, 10, 20)` and the call extracts
`(3, 40, 80)`, so time runs backward by 2 seconds. -/
theorem computeVelocities_backward_time_witness :
    (computeVelocities M_PI_double passThrough
        { wheelRadiusMeters := 1 / 20, halfAxleLengthMeters := 1 / 10,
          timestampSecondsPrev := 5, leftWheelDegreesPrev := 10,
          rightWheelDegreesPrev := 20 } () 3 40 80).out.dtSeconds = 3 - 5 ∧
    (computeVelocities M_PI_double passThrough
        { wheelRadiusMeters := 1 / 20, halfAxleLengthMeters := 1 / 10,
          timestampSecondsPrev := 5, leftWheelDegreesPrev := 10,
          rightWheelDegreesPrev := 20 } () 3 40 80).out.dtSeconds < 0 ∧
    (computeVelocities M_PI_double passThrough
        { wheelRadiusMeters := 1 / 20, halfAxleLengthMeters := 1 / 10,
          timestampSecondsPrev := 5, leftWheelDegreesPrev := 10,
          rightWheelDegreesPrev := 20 } () 3 40 80).robot.timestampSecondsPrev = 3 :=
  have h := computeVelocities_backward_time M_PI_double passThrough
    { wheelRadiusMeters := 1 / 20, halfAxleLengthMeters := 1 / 10,
      timestampSecondsPrev := 5, leftWheelDegreesPrev := 10,
      rightWheelDegreesPrev := 20 } () 3 40 80
    { timestampSeconds := 3, leftWheelDegrees := 40, rightWheelDegrees := 80 }
    rfl (by norm_num) (by norm_num)
  ⟨congrArg Velocities.dtSeconds h.1, h.2.1, h.2.2.1⟩

/-- C8: the test for a prior sample is the sign of the stored timestamp.  From every
state and for every input, with `curr` the extracted sample, the outputs are the delta
formulas when `timestampSecondsPrev > 0` and `(0, 0, 0)` otherwise; and after a call,
from any state, whose extracted timestamp is zero or negative, the next call returns
`(0, 0, 0)` whatever it extracts. -/
theorem computeVelocities_sign_test {α σ : Type} [LinearOrderedField α] (M_PI : α)
    (extractOdometry : ExtractOdometry α σ) (self : WheeledRobot α) (sub : σ)
    (timestamp leftWheelOdometry rightWheelOdometry : α) (curr : Odometry α)
    (hcurr : (extractOdometry sub timestamp leftWheelOdometry rightWheelOdometry).1 = curr) :
    (0 < self.timestampSecondsPrev →
      (computeVelocities M_PI extractOdometry self sub
          timestamp leftWheelOdometry rightWheelOdometry).out
        = { dxyMeters := self.wheelRadiusMeters *
              ((curr.leftWheelDegrees - self.leftWheelDegreesPrev) * M_PI / 180 +
                (curr.rightWheelDegrees - self.rightWheelDegreesPrev) * M_PI / 180)
            dthetaDegrees := (self.wheelRadiusMeters / self.halfAxleLengthMeters) *
              ((curr.rightWheelDegrees - self.rightWheelDegreesPrev) -
                (curr.leftWheelDegrees - self.leftWheelDegreesPrev))
            dtSeconds := curr.timestampSeconds - self.timestampSecondsPrev }) ∧
    (¬ 0 < self.timestampSecondsPrev →
      (computeVelocities M_PI extractOdometry self sub
          timestamp leftWheelOdometry rightWheelOdometry).out
        = { dxyMeters := 0, dthetaDegrees := 0, dtSeconds := 0 }) ∧
    (curr.timestampSeconds ≤ 0 →
      ∀ timestamp2 leftWheelOdometry2 rightWheelOdometry2 : α,
        (computeVelocities M_PI extractOdometry
            (computeVelocities M_PI extractOdometry self sub
              timestamp leftWheelOdometry rightWheelOdometry).robot
            (computeVelocities M_PI extractOdometry self sub
              timestamp leftWheelOdometry rightWheelOdometry).sub
            timestamp2 leftWheelOdometry2 rightWheelOdometry2).out
          = { dxyMeters := 0, dthetaDegrees := 0, dtSeconds := 0 }) := by
  subst hcurr
  refine ⟨fun hpos => ?_, fun hneg => ?_, fun hle timestamp2 left2 right2 => ?_⟩
  · simp only [computeVelocities, radians]
    rw [if_pos hpos]
  · simp only [computeVelocities]
    rw [if_neg hneg]
  · simp only [computeVelocities]
    rw [if_neg (not_lt.mpr hle)]

/-- C8 at concrete calls: from the stored sample `(5, 10, 20)` the call that extracts
`(7, 40, 80)` returns `dtSeconds = 7 - 5`; on a fresh robot the first call extracts
`(-3, 40, 80)`, and the second call, which extracts `(7, 400, 800)`, returns
`(0, 0, 0)`. -/
theorem computeVelocities_sign_test_witness :
    (computeVelocities M_PI_double passThrough
        { wheelRadiusMeters := 1 / 20, halfAxleLengthMeters := 1 / 10,
          timestampSecondsPrev := 5, leftWheelDegreesPrev := 10,
          rightWheelDegreesPrev := 20 } () 7 40 80).out.dtSeconds = 7 - 5 ∧
    (computeVelocities M_PI_double passThrough
        (computeVelocities M_PI_double passThrough
          (WheeledRobot.new (1 / 20) (1 / 10)) () (-3) 40 80).robot
        (computeVelocities M_PI_double passThrough
          (WheeledRobot.new (1 / 20) (1 / 10)) () (-3) 40 80).sub
        7 400 800).out = { dxyMeters := 0, dthetaDegrees := 0, dtSeconds := 0 } :=
  ⟨congrArg Velocities.dtSeconds
      ((computeVelocities_sign_test M_PI_double passThrough
        { wheelRadiusMeters := 1 / 20, halfAxleLengthMeters := 1 / 10,
          timestampSecondsPrev := 5, leftWheelDegreesPrev := 10,
          rightWheelDegreesPrev := 20 } () 7 40 80
        { timestampSeconds := 7, leftWheelDegrees := 40, rightWheelDegrees := 80 }
        rfl).1 (by norm_num)),
    (computeVelocities_sign_test M_PI_double passThrough
        (WheeledRobot.new (1 / 20) (1 / 10)) () (-3) 40 80
        { timestampSeconds := -3, leftWheelDegrees := 40, rightWheelDegrees := 80 }
        rfl).2.2 (by norm_num) 7 400 800⟩

/-- Consecutive calls from a state with a positive stored timestamp, all extracted
timestamps positive: the returned deltas add up to the deltas between the stored
sample and the last extracted one (the stored sample itself when there is no call). -/
theorem runCalls_sum_from_positive {α σ : Type} [LinearOrderedField α] (M_PI : α)
    (extractOdometry : ExtractOdometry α σ) (inputs : List (α × α × α)) :
    ∀ (self : WheeledRobot α) (sub : σ), 0 < self.timestampSecondsPrev →
      (∀ e ∈ extractAll extractOdometry sub inputs, 0 < e.timestampSeconds) →
      ((runCalls M_PI extractOdometry self sub inputs).map Velocities.dtSeconds).sum
        = ((extractAll extractOdometry sub inputs).getLast?.getD
            { timestampSeconds := self.timestampSecondsPrev
              leftWheelDegrees := self.leftWheelDegreesPrev
              rightWheelDegrees := self.rightWheelDegreesPrev }).timestampSeconds
          - self.timestampSecondsPrev ∧
      ((runCalls M_PI extractOdometry self sub inputs).map Velocities.dxyMeters).sum
        = self.wheelRadiusMeters *
          ((((extractAll extractOdometry sub inputs).getLast?.getD
              { timestampSeconds := self.timestampSecondsPrev
                leftWheelDegrees := self.leftWheelDegreesPrev
                rightWheelDegrees := self.rightWheelDegreesPrev }).leftWheelDegrees
              - self.leftWheelDegreesPrev) * M_PI / 180 +
            (((extractAll extractOdometry sub inputs).getLast?.getD
              { timestampSeconds := self.timestampSecondsPrev
                leftWheelDegrees := self.leftWheelDegreesPrev
                rightWheelDegrees := self.rightWheelDegreesPrev }).rightWheelDegrees
              - self.rightWheelDegreesPrev) * M_PI / 180) ∧
      ((runCalls M_PI extractOdometry self sub inputs).map Velocities.dthetaDegrees).sum
        = self.wheelRadiusMeters / self.halfAxleLengthMeters *
          ((((extractAll extractOdometry sub inputs).getLast?.getD
              { timestampSeconds := self.timestampSecondsPrev
                leftWheelDegrees := self.leftWheelDegreesPrev
                rightWheelDegrees := self.rightWheelDegreesPrev }).rightWheelDegrees
              - self.rightWheelDegreesPrev) -
            (((extractAll extractOdometry sub inputs).getLast?.getD
              { timestampSeconds := self.timestampSecondsPrev
                leftWheelDegrees := self.leftWheelDegreesPrev
                rightWheelDegrees := self.rightWheelDegreesPrev }).leftWheelDegrees
              - self.leftWheelDegreesPrev)) := by
  induction inputs with
  | nil =>
    intro self sub _ _
    simp [runCalls, extractAll]
  | cons input rest ih =>
    intro self sub hpos hall
    have hhead : 0 < (extractOdometry sub input.1 input.2.1 input.2.2).1.timestampSeconds :=
      hall _ (by simp [extractAll])
    have htail : ∀ e ∈ extractAll extractOdometry
        (extractOdometry sub input.1 input.2.1 input.2.2).2 rest, 0 < e.timestampSeconds :=
      fun e he => hall e (by simp [extractAll, he])
    have hrec := ih
      (computeVelocities M_PI extractOdometry self sub input.1 input.2.1 input.2.2).robot
      (computeVelocities M_PI extractOdometry self sub input.1 input.2.1 input.2.2).sub
      hhead htail
    simp only [computeVelocities] at hrec
    obtain ⟨hdt, hdxy, hdtheta⟩ := hrec
    simp only [runCalls, extractAll, List.map_cons, List.sum_cons, List.getLast?_cons,
      Option.getD_some, computeVelocities, radians, if_pos hpos]
    rw [hdt, hdxy, hdtheta]
    refine ⟨by ring, by ring, by ring⟩

/-- C9: the deltas telescope.  For consecutive calls on a fresh robot whose extracted
timestamps are all positive, with `first` the first and `last` the last extracted
sample (so there is at least one call; the claim has at least two), the returned
`dtSeconds` add up to `last.timestampSeconds - first.timestampSeconds`, the returned
`dxyMeters` to `wheelRadius * ((L_n - L_1) * M_PI / 180 + (R_n - R_1) * M_PI / 180)`
and the returned `dthetaDegrees` to
`(wheelRadius / halfAxleLength) * ((R_n - R_1) - (L_n - L_1))`. -/
theorem runCalls_telescope {α σ : Type} [LinearOrderedField α] (M_PI : α)
    (extractOdometry : ExtractOdometry α σ) (wheelRadiusMeters halfAxleLengthMeters : α)
    (sub : σ) (inputs : List (α × α × α)) (first last : Odometry α)
    (hpos : ∀ e ∈ extractAll extractOdometry sub inputs, 0 < e.timestampSeconds)
    (hfirst : (extractAll extractOdometry sub inputs).head? = some first)
    (hlast : (extractAll extractOdometry sub inputs).getLast? = some last) :
    ((runCalls M_PI extractOdometry
        (WheeledRobot.new wheelRadiusMeters halfAxleLengthMeters) sub inputs).map
        Velocities.dtSeconds).sum
      = last.timestampSeconds - first.timestampSeconds ∧
    ((runCalls M_PI extractOdometry
        (WheeledRobot.new wheelRadiusMeters halfAxleLengthMeters) sub inputs).map
        Velocities.dxyMeters).sum
      = wheelRadiusMeters *
        ((last.leftWheelDegrees - first.leftWheelDegrees) * M_PI / 180 +
          (last.rightWheelDegrees - first.rightWheelDegrees) * M_PI / 180) ∧
    ((runCalls M_PI extractOdometry
        (WheeledRobot.new wheelRadiusMeters halfAxleLengthMeters) sub inputs).map
        Velocities.dthetaDegrees).sum
      = (wheelRadiusMeters / halfAxleLengthMeters) *
        ((last.rightWheelDegrees - first.rightWheelDegrees) -
          (last.leftWheelDegrees - first.leftWheelDegrees)) := by
  cases inputs with
  | nil => simp [extractAll] at hfirst
  | cons input rest =>
    have hhead : 0 < (extractOdometry sub input.1 input.2.1 input.2.2).1.timestampSeconds :=
      hpos _ (by simp [extractAll])
    have htail : ∀ e ∈ extractAll extractOdometry
        (extractOdometry sub input.1 input.2.1 input.2.2).2 rest, 0 < e.timestampSeconds :=
      fun e he => hpos e (by simp [extractAll, he])
    have hrec := runCalls_sum_from_positive M_PI extractOdometry rest
      (computeVelocities M_PI extractOdometry
        (WheeledRobot.new wheelRadiusMeters halfAxleLengthMeters) sub
        input.1 input.2.1 input.2.2).robot
      (computeVelocities M_PI extractOdometry
        (WheeledRobot.new wheelRadiusMeters halfAxleLengthMeters) sub
        input.1 input.2.1 input.2.2).sub
      hhead htail
    simp only [computeVelocities, WheeledRobot.new] at hrec
    obtain ⟨hdt, hdxy, hdtheta⟩ := hrec
    simp only [extractAll, List.head?_cons, Option.some.injEq] at hfirst
    simp only [extractAll, List.getLast?_cons, Option.some.injEq] at hlast
    subst hfirst
    rw [hlast] at hdt hdxy hdtheta
    have hfresh : ¬ (0 : α) < 0 := lt_irrefl 0
    simp only [runCalls, List.map_cons, List.sum_cons, computeVelocities, WheeledRobot.new,
      gt_iff_lt, if_neg hfresh]
    rw [hdt, hdxy, hdtheta]
    simp only [zero_add, and_self]

/-- C9 at a concrete run of three calls on a fresh robot (wheel radius 1/20, half
axle length 1/10) that extract `(1, 0, 0)`, `(2, 90, 45)` and `(4, 180, 270)`. -/
theorem runCalls_telescope_witness :
    ((runCalls M_PI_double passThrough (WheeledRobot.new (1 / 20) (1 / 10)) ()
        [(1, 0, 0), (2, 90, 45), (4, 180, 270)]).map Velocities.dtSeconds).sum
      = (4 : ℚ) - 1 ∧
    ((runCalls M_PI_double passThrough (WheeledRobot.new (1 / 20) (1 / 10)) ()
        [(1, 0, 0), (2, 90, 45), (4, 180, 270)]).map Velocities.dxyMeters).sum
      = (1 / 20 : ℚ) *
        (((180 : ℚ) - 0) * M_PI_double / 180 + ((270 : ℚ) - 0) * M_PI_double / 180) ∧
    ((runCalls M_PI_double passThrough (WheeledRobot.new (1 / 20) (1 / 10)) ()
        [(1, 0, 0), (2, 90, 45), (4, 180, 270)]).map Velocities.dthetaDegrees).sum
      = ((1 / 20 : ℚ) / (1 / 10)) * (((270 : ℚ) - 0) - ((180 : ℚ) - 0)) :=
  runCalls_telescope M_PI_double passThrough (1 / 20) (1 / 10) ()
    [(1, 0, 0), (2, 90, 45), (4, 180, 270)]
    { timestampSeconds := 1, leftWheelDegrees := 0, rightWheelDegrees := 0 }
    { timestampSeconds := 4, leftWheelDegrees := 180, rightWheelDegrees := 270 }
    (by
      intro e he
      simp only [extractAll, passThrough, List.mem_cons, List.mem_singleton,
        List.not_mem_nil, or_false] at he
      rcases he with rfl | rfl | rfl <;> norm_num)
    rfl rfl

/-- Where the call does not divide by zero (the stored timestamp is not positive, or
`halfAxleLengthMeters` is not zero), `computeVelocitiesExtended` returns the numbers
of `computeVelocities` and leaves the same object and subclass state. -/
theorem computeVelocitiesExtended_agrees {α σ : Type} [LinearOrderedField α] (M_PI : α)
    (extractOdometry : ExtractOdometry α σ) (self : WheeledRobot α) (sub : σ)
    (timestamp leftWheelOdometry rightWheelOdometry : α)
    (hdiv : 0 < self.timestampSecondsPrev → self.halfAxleLengthMeters ≠ 0) :
    (computeVelocitiesExtended M_PI extractOdometry self sub
        timestamp leftWheelOdometry rightWheelOdometry).out
      = { dxyMeters := (computeVelocities M_PI extractOdometry self sub
            timestamp leftWheelOdometry rightWheelOdometry).out.dxyMeters
          dthetaDegrees := some (computeVelocities M_PI extractOdometry self sub
            timestamp leftWheelOdometry rightWheelOdometry).out.dthetaDegrees
          dtSeconds := (computeVelocities M_PI extractOdometry self sub
            timestamp leftWheelOdometry rightWheelOdometry).out.dtSeconds } ∧
    (computeVelocitiesExtended M_PI extractOdometry self sub
        timestamp leftWheelOdometry rightWheelOdometry).robot
      = (computeVelocities M_PI extractOdometry self sub
        timestamp leftWheelOdometry rightWheelOdometry).robot ∧
    (computeVelocitiesExtended M_PI extractOdometry self sub
        timestamp leftWheelOdometry rightWheelOdometry).sub
      = (computeVelocities M_PI extractOdometry self sub
        timestamp leftWheelOdometry rightWheelOdometry).sub := by
  refine ⟨?_, rfl, rfl⟩
  simp only [computeVelocitiesExtended, computeVelocities]
  by_cases hpos : self.timestampSecondsPrev > 0
  · simp only [if_pos hpos, quotient, if_neg (hdiv hpos), Option.map_some']
  · simp only [if_neg hpos]

/-- Rows of equal width, laid end to end, take `rows.length * width` bytes. -/
theorem length_flatten_of_width (width : Nat) (rows : List (List Byte))
    (hrows : ∀ row ∈ rows, row.length = width) :
    rows.flatten.length = rows.length * width := by
  induction rows with
  | nil => simp
  | cons row rest ih =>
    have hrow : row.length = width := hrows row (List.mem_cons_self row rest)
    have hrest := ih fun r hr => hrows r (List.mem_cons_of_mem row hr)
    simp only [List.flatten_cons, List.length_append, List.length_cons, hrow, hrest]
    ring

/-- Splitting the rows laid end to end gives the rows back, whatever follows them. -/
theorem splitRows_flatten (width : Nat) (rows : List (List Byte)) (tail : List Byte)
    (hrows : ∀ row ∈ rows, row.length = width) :
    splitRows width rows.length (rows.flatten ++ tail) = rows := by
  induction rows with
  | nil => rfl
  | cons row rest ih =>
    have hrow : row.length = width := hrows row (List.mem_cons_self row rest)
    have hrest := ih fun r hr => hrows r (List.mem_cons_of_mem row hr)
    simp only [List.flatten_cons, List.length_cons, splitRows, List.append_assoc]
    rw [List.take_left' hrow, List.drop_left' hrow, hrest]

/-- Row-major order: byte `y * width + x` of the rows laid end to end is cell `x` of
row `y`. -/
theorem getElem?_flatten_rowMajor (width : Nat) (rows : List (List Byte)) (tail : List Byte)
    (hrows : ∀ row ∈ rows, row.length = width) :
    ∀ x y : Nat, x < width → y < rows.length →
      (rows.flatten ++ tail)[y * width + x]? = (rows[y]?).bind fun row => row[x]? := by
  induction rows with
  | nil =>
    intro x y _ hy
    simp at hy
  | cons row rest ih =>
    intro x y hx hy
    have hrow : row.length = width := hrows row (List.mem_cons_self row rest)
    have hrest := ih fun r hr => hrows r (List.mem_cons_of_mem row hr)
    cases y with
    | zero =>
      simp only [List.flatten_cons, List.append_assoc, Nat.zero_mul, Nat.zero_add,
        List.getElem?_cons_zero, Option.some_bind]
      rw [List.getElem?_append_left (by omega)]
    | succ y =>
      have hy2 : y < rest.length := by simpa using hy
      have hge : row.length ≤ (y + 1) * width + x := by
        rw [hrow, Nat.succ_mul]
        omega
      have hidx : (y + 1) * width + x - row.length = y * width + x := by
        rw [hrow, Nat.succ_mul]
        omega
      simp only [List.flatten_cons, List.append_assoc, List.getElem?_cons_succ]
      rw [List.getElem?_append_right hge, hidx]
      exact hrest x y hx hy2

/-- C5: for every stored map (a square grid) and every caller buffer of at least
`map_size_pixels * map_size_pixels` bytes (exactly that many in the claim), `setmap`
with the buffer that `getmap` filled leaves the stored map unchanged; `getmap` keeps
the length of the buffer, writes cell `x` of row `y` at index
`y * map_size_pixels + x`, and leaves the bytes from index
`map_size_pixels * map_size_pixels` on as they were. -/
theorem setmap_getmap (grid : OccupancyGrid) (mapbytes : List Byte)
    (hsquare : grid.Square)
    (hlen : grid.map_size_pixels * grid.map_size_pixels ≤ mapbytes.length) :
    setmap grid (getmap grid mapbytes) = grid ∧
    (getmap grid mapbytes).length = mapbytes.length ∧
    (∀ x y : Nat, x < grid.map_size_pixels → y < grid.map_size_pixels →
      (getmap grid mapbytes)[y * grid.map_size_pixels + x]? = grid.cell x y) ∧
    (getmap grid mapbytes).drop (grid.map_size_pixels * grid.map_size_pixels)
      = mapbytes.drop (grid.map_size_pixels * grid.map_size_pixels) := by
  obtain ⟨size, rows⟩ := grid
  obtain ⟨hcount, hrows⟩ := hsquare
  simp only at hcount hrows hlen
  have hflat : rows.flatten.length = size * size := by
    rw [length_flatten_of_width size rows hrows, hcount]
  refine ⟨?_, ?_, ?_, ?_⟩
  · simp only [setmap, getmap]
    have hsplit := splitRows_flatten size rows (mapbytes.drop (size * size)) hrows
    rw [hcount] at hsplit
    rw [hsplit]
  · simp only [getmap, List.length_append, List.length_drop, hflat]
    omega
  · intro x y hx hy
    simp only [getmap, OccupancyGrid.cell]
    exact getElem?_flatten_rowMajor size rows _ hrows x y hx (hcount.symm ▸ hy)
  · simp only [getmap]
    exact List.drop_left' hflat

/-- C5 at a concrete map of 2 by 2 cells and a buffer of 4 bytes. -/
theorem setmap_getmap_witness :
    setmap { map_size_pixels := 2, rows := [[0, 255], [127, 128]] }
        (getmap { map_size_pixels := 2, rows := [[0, 255], [127, 128]] } [9, 9, 9, 9])
      = { map_size_pixels := 2, rows := [[0, 255], [127, 128]] } ∧
    (getmap { map_size_pixels := 2, rows := [[0, 255], [127, 128]] } [9, 9, 9, 9]).length
      = 4 :=
  have h := setmap_getmap { map_size_pixels := 2, rows := [[0, 255], [127, 128]] }
    [9, 9, 9, 9] (by decide) (by decide)
  ⟨h.1, h.2.1⟩

end BreezySLAM
